import Mathlib

/-!
# Verification of the `provwf` provenance-record core

A shallow embedding of `provworkflow/prov_reporter.py` and
`provworkflow/workflow.py`, together with theorems settling the frozen
claims about record construction, graph building, and the persistence
dispatcher.

Modelling conventions:
* RDF terms, triples and graphs are modelled concretely; a graph's
  statement store records every `Graph.add` call in order (a multiset of
  statements presented as a list), matching the design's multiset view of
  graphs.
* External collaborators (the `uuid` generator, the Git version lookup
  `get_version_uri`, and `datetime.now`) are passed to constructors as
  explicit parameters.
* rdflib's serializer is out of scope for the design; it is modelled as an
  opaque-but-deterministic rendering function tagged with the requested
  format.
* Raised exceptions are modelled with `Except PyError`, distinguishing the
  library's `ProvWorkflowException` from Python's built-in `AttributeError`
  and carrying the exact message the source raises.
-/

/-! ## RDF term and graph model -/

/-- An RDF node: a URI reference or a literal with an optional datatype. -/
inductive Term where
  | uriRef (s : String)
  | lit (s : String) (datatype : Option String)
deriving DecidableEq, Repr

/-- A single RDF statement. -/
structure Triple where
  s : Term
  p : Term
  o : Term
deriving DecidableEq, Repr

/-- An rdflib `Graph`: an optional named-graph identifier, accumulated
namespace-prefix bindings, and the statements added so far.  The statement
store keeps one entry per `add` call, in call order (multiset view). -/
structure Graph where
  identifier : Option String
  bindings : List (String × String)
  triples : List Triple
deriving DecidableEq, Repr

def Graph.empty : Graph := { identifier := none, bindings := [], triples := [] }

/-- `g.add(t)` appends one statement. -/
def Graph.add (g : Graph) (t : Triple) : Graph :=
  { g with triples := g.triples ++ [t] }

/-- `g.bind(prefixName, ns)` records a namespace-prefix binding; it never
touches the statements. -/
def Graph.bind (g : Graph) (p : String) (ns : String) : Graph :=
  { g with bindings := g.bindings ++ [(p, ns)] }

/-! ## Vocabulary constants (`provworkflow.namespace` and rdflib namespaces) -/

/-- Modelled from the spec: the system vocabulary namespace `PROVWF` lives in
`provworkflow/namespace.py`, which is not part of the analysed sources; its
exact IRI text is opaque to every claim. -/
def PROVWF_ns : String := "https://data.surroundaustralia.com/def/provworkflow/"

/-- Modelled from the spec: the record-identifier namespace `PWFS` from
`provworkflow/namespace.py` (not in the analysed sources); generated record
URIs are minted under it. -/
def PWFS : String := "https://data.surroundaustralia.com/dataset/provworkflows/"

def RDF_ns : String := "http://www.w3.org/1999/02/22-rdf-syntax-ns#"

def RDFS_ns : String := "http://www.w3.org/2000/01/rdf-schema#"

def DCTERMS_ns : String := "http://purl.org/dc/terms/"

def XSD_ns : String := "http://www.w3.org/2001/XMLSchema#"

def PROV_ns : String := "http://www.w3.org/ns/prov#"

def OWL_ns : String := "http://www.w3.org/2002/07/owl#"

def RDF.type : Term := Term.uriRef (RDF_ns ++ "type")

def RDFS.label : Term := Term.uriRef (RDFS_ns ++ "label")

def DCTERMS.created : Term := Term.uriRef (DCTERMS_ns ++ "created")

def XSD.dateTimeStamp : String := XSD_ns ++ "dateTimeStamp"

def XSD.string : String := XSD_ns ++ "string"

def PROVWF.ProvReporter : Term := Term.uriRef (PROVWF_ns ++ "ProvReporter")

def PROVWF.Workflow : Term := Term.uriRef (PROVWF_ns ++ "Workflow")

def PROVWF.hadBlock : Term := Term.uriRef (PROVWF_ns ++ "hadBlock")

/-! ## Python string helpers

`str.replace(pat, repl)` replaces every non-overlapping occurrence of `pat`
anywhere in the string, scanning left to right; `str.startswith` tests a
prefix.  Both are implemented on character lists so they evaluate inside the
kernel. -/

/-- Left-to-right non-overlapping replacement on character lists; the fuel is
an upper bound on the number of steps (the string length suffices because
every step consumes at least one character). -/
def replaceChars : Nat → List Char → List Char → List Char → List Char
  | 0, _, _, _ => []
  | _ + 1, [], _, _ => []
  | fuel + 1, c :: rest, pat, repl =>
    if pat.isPrefixOf (c :: rest) then
      repl ++ replaceChars fuel ((c :: rest).drop pat.length) pat repl
    else
      c :: replaceChars fuel rest pat repl

/-- Python `s.replace(pat, repl)`. -/
def pyReplace (s pat repl : String) : String :=
  ⟨replaceChars s.data.length s.data pat.data repl.data⟩

/-- Python `s.startswith(pat)`. -/
def pyStartsWith (s pat : String) : Bool :=
  pat.data.isPrefixOf s.data

/-! ## Serialization (external collaborator) -/

def Term.render : Term → String
  | Term.uriRef s => "<" ++ s ++ ">"
  | Term.lit s none => "\"" ++ s ++ "\""
  | Term.lit s (some dt) => "\"" ++ s ++ "\"^^<" ++ dt ++ ">"

def Triple.render (t : Triple) : String :=
  t.s.render ++ " " ++ t.p.render ++ " " ++ t.o.render ++ " ."

/-- rdflib's `Graph.serialize(format=...)`, an out-of-scope collaborator of
the design: modelled as a deterministic rendering of the statement list,
tagged with the requested format so that distinct formats give distinct
output. -/
def Graph.serialize (g : Graph) (format : String) : String :=
  "format=" ++ format ++ "\n" ++ String.intercalate "\n" (g.triples.map Triple.render)

/-! ## Exceptions -/

/-- A raised Python exception, as observable by the caller: the library's
own `ProvWorkflowException` (from `provworkflow/exceptions.py`) or a
built-in `AttributeError` from a failed attribute lookup. -/
inductive PyError where
  | provWorkflowException (msg : String)
  | attributeError (msg : String)
deriving DecidableEq, Repr

/-! ## ProvReporter (`prov_reporter.py`) -/

/-- The state of a constructed `ProvReporter` (or subclass) instance.
`className` is the Python runtime class name `self.__class__.__name__`;
`class_uri` is only ever set when the constructor was given one. -/
structure ProvReporter where
  className : String
  uri : String
  label : Option String
  named_graph_uri : Option String
  class_uri : Option String
  version_uri : Option String
  created : String
deriving DecidableEq, Repr

def known_classes : List String := ["Entity", "Activity", "Agent", "Workflow", "Block"]

def builtinClassUriMsg : String :=
  "If a ProvWorkflow-defined class is used without specialisation, class_uri must not be set"

def specialisedNeedsClassUriMsg : String :=
  "A specialised Block must have a class_uri instance variable supplied"

def classUriHttpMsg : String :=
  "If supplied, a class_uri must start with http"

/-- `ProvReporter.__init__` (prov_reporter.py lines 51-95).  The `uuid`
argument stands for `uuid.uuid1()`, `version` for `get_version_uri()` and
`now` for the formatted `datetime.now()` timestamp (external collaborators
made explicit).  The three specialisation checks are all nested under
`if class_uri is not None:` exactly as in the source; note that inside that
block `self.class_uri` equals `Some c`, so the middle branch mirrors the
source's unreachable `elif`. -/
def ProvReporter.init (className : String) (uri : Option String)
    (label : Option String) (named_graph_uri : Option String)
    (class_uri : Option String) (uuid : String) (version : Option String)
    (now : String) : Except PyError ProvReporter :=
  let u : String :=
    match uri with
    | some s => s
    | none => PWFS ++ uuid
  let base : ProvReporter :=
    { className := className, uri := u, label := label,
      named_graph_uri := named_graph_uri, class_uri := none,
      version_uri := version, created := now }
  match class_uri with
  | none => Except.ok base
  | some c =>
    if className ∈ known_classes ∧ (some c ≠ (none : Option String)) then
      Except.error (PyError.provWorkflowException builtinClassUriMsg)
    else if className ∉ known_classes ∧ (some c = (none : Option String)) then
      Except.error (PyError.provWorkflowException specialisedNeedsClassUriMsg)
    else if (some c ≠ (none : Option String)) ∧ ¬ (pyStartsWith c "http" = true) then
      Except.error (PyError.provWorkflowException classUriHttpMsg)
    else
      Except.ok { base with class_uri := some c }

/-- `ProvReporter.prov_to_graph` (prov_reporter.py lines 97-117): create the
graph if none was supplied (tagging it with the record's named-graph URI when
one is set), bind the namespace prefixes, then add the type, created and
optional label statements. -/
def ProvReporter.prov_to_graph (r : ProvReporter) (g? : Option Graph) : Graph :=
  let g : Graph :=
    match g? with
    | some g => g
    | none =>
      match r.named_graph_uri with
      | some n => { identifier := some n, bindings := [], triples := [] }
      | none => { identifier := none, bindings := [], triples := [] }
  let g := (((((g.bind "prov" PROV_ns).bind "provwf" PROVWF_ns).bind "pwfs" PWFS).bind "owl" OWL_ns).bind "dcterms" DCTERMS_ns)
  let g := g.add ⟨Term.uriRef r.uri, RDF.type, PROVWF.ProvReporter⟩
  let g := g.add ⟨Term.uriRef r.uri, DCTERMS.created, Term.lit r.created (some XSD.dateTimeStamp)⟩
  match r.label with
  | some l => g.add ⟨Term.uriRef r.uri, RDFS.label, Term.lit l (some XSD.string)⟩
  | none => g

/-- The statements one `prov_to_graph` call adds for a record: its type and
created statements, plus a label statement when a label is set. -/
def ProvReporter.ownTriples (r : ProvReporter) : List Triple :=
  [⟨Term.uriRef r.uri, RDF.type, PROVWF.ProvReporter⟩,
   ⟨Term.uriRef r.uri, DCTERMS.created, Term.lit r.created (some XSD.dateTimeStamp)⟩]
  ++ (match r.label with
      | some l => [⟨Term.uriRef r.uri, RDFS.label, Term.lit l (some XSD.string)⟩]
      | none => [])

theorem prov_to_graph_triples (r : ProvReporter) (g? : Option Graph) :
    (r.prov_to_graph g?).triples =
      (match g? with | some g => g.triples | none => []) ++ r.ownTriples := by
  cases g? with
  | some g =>
    cases h : r.label <;>
      simp [ProvReporter.prov_to_graph, ProvReporter.ownTriples, Graph.add, Graph.bind, h]
  | none =>
    cases hn : r.named_graph_uri <;> cases h : r.label <;>
      simp [ProvReporter.prov_to_graph, ProvReporter.ownTriples, Graph.add, Graph.bind, h, hn]

/-! ## Workflow (`workflow.py`) -/

def workflowNeedsBlockMsg : String := "A Workflow must have at least one Block within it"

/-- The message of the `AttributeError` Python raises when
`Workflow.prov_to_graph` evaluates `self.PROVWF` (workflow.py line 25): no
`PROVWF` attribute exists on the instance or anywhere in its class hierarchy
in the analysed sources — `PROVWF` is only a module-level import inside
prov_reporter.py, and Python attribute lookup never falls back to another
module's globals. -/
def provwfAttrMsg : String :=
  "\x27Workflow\x27 object has no attribute \x27PROVWF\x27"

/-- A `Workflow` instance: the inherited `ProvReporter` state plus the
`blocks` attribute.  `blocks` is an `Option` because Python allows the
attribute to be reassigned to `None` after construction; the constructor
itself always leaves a list in place.  Child blocks are modelled by their
record state. -/
structure Workflow where
  base : ProvReporter
  blocks : Option (List ProvReporter)
deriving DecidableEq, Repr

/-- `Workflow.__init__` (workflow.py lines 9-13): forwards only `uri` and
`label` to `ProvReporter.__init__` (so `named_graph_uri` and `class_uri` are
left at `None`), then stores `blocks`, substituting the empty list for
`None`. -/
def Workflow.init (uri : Option String) (label : Option String)
    (blocks : Option (List ProvReporter)) (uuid : String)
    (version : Option String) (now : String) : Except PyError Workflow :=
  match ProvReporter.init "Workflow" uri label none none uuid version now with
  | Except.error e => Except.error e
  | Except.ok base => Except.ok { base := base, blocks := some (blocks.getD []) }

/-- `Workflow.prov_to_graph` (workflow.py lines 15-38): raise
`ProvWorkflowException` if `blocks` is `None` or empty.  On the non-empty
path the source first runs `g = super().prov_to_graph(g)` and then
evaluates `self.PROVWF.Workflow` (line 25) to emit the workflow's type
statement — but no `PROVWF` attribute exists on `Workflow`, `ProvReporter`
or the instance in the analysed sources, so Python raises `AttributeError`
there: the `Workflow` type statement, the blocks loop with its `hadBlock`
statements, and the `return` are never reached.  This functional form
returns the raised error; the graph state visible to a caller who supplied
a graph is captured by `Workflow.prov_to_graphOn`. -/
def Workflow.prov_to_graph (w : Workflow) (g? : Option Graph) : Except PyError Graph :=
  match w.blocks with
  | none => Except.error (PyError.provWorkflowException workflowNeedsBlockMsg)
  | some bs =>
    if bs.length < 1 then
      Except.error (PyError.provWorkflowException workflowNeedsBlockMsg)
    else
      Except.error (PyError.attributeError provwfAttrMsg)

/-- `Workflow.prov_to_graph` viewed as a transformer of a caller-supplied
graph: the result is the graph state visible to the caller after the call,
together with the raised error, if any.  Python mutates the caller's graph
in place: the empty/`None` check precedes every statement emission, so on
`ProvWorkflowException` the caller's graph is returned exactly as supplied,
while on the non-empty path `super().prov_to_graph(g)` has already added
the base-class statements when the `AttributeError` at
`self.PROVWF.Workflow` is raised. -/
def Workflow.prov_to_graphOn (w : Workflow) (g : Graph) : Graph × Option PyError :=
  match w.blocks with
  | none => (g, some (PyError.provWorkflowException workflowNeedsBlockMsg))
  | some bs =>
    if bs.length < 1 then
      (g, some (PyError.provWorkflowException workflowNeedsBlockMsg))
    else
      (w.base.prov_to_graph (some g), some (PyError.attributeError provwfAttrMsg))

/-! ## Backend adapters and the persistence dispatcher -/

/-- The externally observable side effect of one backend invocation. -/
inductive Effect where
  | fileWrite (path : String) (content : String)
  | graphdbPost (context : String) (data : String)
  | sopInsert (graph : Option String) (query : String)
deriving DecidableEq, Repr

/-- `ProvReporter._persist_to_file` (prov_reporter.py lines 119-133): strip
every occurrence of `.ttl` and `.trig` from the base path (Python
`str.replace` replaces everywhere, not just a trailing extension), then
write Turtle to `path + ".ttl"` when no named-graph URI is set, else TriG to
`path + ".trig"`. -/
def persistToFile (g : Graph) (rdf_file_path : String)
    (named_graph_uri : Option String) : Effect :=
  let p := pyReplace (pyReplace rdf_file_path ".ttl" "") ".trig" ""
  match named_graph_uri with
  | none => Effect.fileWrite (p ++ ".ttl") (g.serialize "turtle")
  | some _ => Effect.fileWrite (p ++ ".trig") (g.serialize "trig")

/-- `ProvReporter._persist_to_graphdb` (prov_reporter.py lines 135-170): POST
the Turtle serialization with the named graph as the `context` parameter,
wrapped in angle brackets, or the sentinel `"null"` when none is given.
(The source guards the wrapping with `if named_graph_uri != "null"`, under
which a caller passing the literal string `"null"` would leave `context`
unbound; no claim exercises that path.)  The HTTP response handling is an
external collaborator and is not part of the modelled effect. -/
def persistToGraphdb (g : Graph) (named_graph_uri : Option String) : Effect :=
  let context :=
    match named_graph_uri with
    | none => "null"
    | some n => "<" ++ n ++ ">"
  Effect.graphdbPost context (g.serialize "turtle")

/-- Modelled from the spec: `make_sparql_insert_data` lives in
`provworkflow/utils.py`, which is not part of the analysed sources; per the
design it renders the statements as an `INSERT DATA` update, wrapped in a
`GRAPH <uri>` clause when a named-graph target is set. -/
def make_sparql_insert_data (named_graph_uri : Option String) (g : Graph) : String :=
  let body := String.intercalate "\n" (g.triples.map Triple.render)
  match named_graph_uri with
  | some n => "INSERT DATA \x7b GRAPH <" ++ n ++ "> \x7b " ++ body ++ " \x7d \x7d"
  | none => "INSERT DATA \x7b " ++ body ++ " \x7d"

/-- `ProvReporter._persist_to_sop` (prov_reporter.py lines 172-190): issue
the generated SPARQL update against the named graph.  The HTTP response
handling is an external collaborator and is not part of the modelled
effect. -/
def persistToSop (g : Graph) (named_graph_uri : Option String) : Effect :=
  Effect.sopInsert named_graph_uri (make_sparql_insert_data named_graph_uri g)

/-- The receiver of a `persist` call: a `ProvReporter`-typed instance, a
`Workflow`-typed instance (whose overriding `prov_to_graph` is dispatched
dynamically), or the class itself (generic mode). -/
inductive Invoker where
  | inst (r : ProvReporter)
  | instW (w : Workflow)
  | cls
deriving Repr

/-- The `methods` argument of `persist`: a single string, a list, or omitted. -/
inductive MethodsArg where
  | str (s : String)
  | list (l : List String)
  | none_
deriving DecidableEq, Repr

/-- prov_reporter.py lines 303-306: a single string becomes a one-element
list and an omitted argument defaults to `["string"]`. -/
def normalizeMethods : MethodsArg → List String
  | MethodsArg.str s => [s]
  | MethodsArg.list l => l
  | MethodsArg.none_ => ["string"]

def known_methods : List String := ["graphdb", "sop", "file", "string"]

/-- The message of prov_reporter.py lines 311-315: it names the offending
method and lists the valid method names. -/
def unknownMethodMsg (m : String) : String :=
  "A persistent method you selected, " ++ m ++
    ", is not in the list of known methods, \x27" ++
    String.intercalate "\x27, \x27" known_methods ++ "\x27"

def genericNeedsGraphMsg : String :=
  "When called as a class method, i.e. ProvReporter.persist(...), you must supply a non-null Graph g"

/-- prov_reporter.py lines 320-321: a record's own `named_graph_uri`, when
set, replaces the caller-supplied argument. -/
def resolveNamedGraph (recordNg callerNg : Option String) : Option String :=
  match recordNg with
  | some n => some n
  | none => callerNg

/-- prov_reporter.py lines 317-326: in instance mode the graph is freshly
built from the record (a caller-supplied graph is ignored) and the record's
`named_graph_uri` replaces the caller's argument when set; in generic mode a
graph must have been supplied. -/
def resolveGraphAndTarget (who : Invoker) (g? : Option Graph)
    (named_graph_uri : Option String) : Except PyError (Graph × Option String) :=
  match who with
  | Invoker.inst r =>
    Except.ok (r.prov_to_graph none, resolveNamedGraph r.named_graph_uri named_graph_uri)
  | Invoker.instW w =>
    match w.prov_to_graph none with
    | Except.error e => Except.error e
    | Except.ok g =>
      Except.ok (g, resolveNamedGraph w.base.named_graph_uri named_graph_uri)
  | Invoker.cls =>
    match g? with
    | none => Except.error (PyError.provWorkflowException genericNeedsGraphMsg)
    | some g => Except.ok (g, named_graph_uri)

/-- prov_reporter.py lines 329-336: the selected backends run in the fixed
order file, graphdb, sop. -/
def backendEffects (g : Graph) (methods : List String) (rdf_file_path : String)
    (ng : Option String) : List Effect :=
  (if "file" ∈ methods then [persistToFile g rdf_file_path ng] else [])
  ++ (if "graphdb" ∈ methods then [persistToGraphdb g ng] else [])
  ++ (if "sop" ∈ methods then [persistToSop g ng] else [])

/-- prov_reporter.py lines 338-345: when `string` is selected, the graph is
serialized (Turtle without a named-graph target, TriG with one) and returned;
otherwise the function returns `None`. -/
def stringResult (g : Graph) (methods : List String) (ng : Option String) :
    Option String :=
  if "string" ∈ methods then
    some (match ng with
          | none => g.serialize "turtle"
          | some _ => g.serialize "trig")
  else none

/-- The validation predicate of the dispatcher's method loop: the loop
raises at the first selected name that is not a known method. -/
def isUnknownMethod (m : String) : Bool := decide (m ∉ known_methods)

/-- `ProvReporter.persist` (prov_reporter.py lines 294-345): normalize the
method selection, validate every name before anything else (raising on the
first unknown one), resolve the graph and named-graph target from the
invocation mode, run the selected backends in fixed order, and return the
serialized string when `string` was selected.  The result pairs the backend
effects that were performed with the returned value or raised error; both
error paths precede every backend invocation, so they carry no effects. -/
def ProvReporter.persist (who : Invoker) (g? : Option Graph)
    (methodsArg : MethodsArg) (rdf_file_path : String)
    (named_graph_uri : Option String) :
    List Effect × Except PyError (Option String) :=
  let methods := normalizeMethods methodsArg
  match methods.find? isUnknownMethod with
  | some m => ([], Except.error (PyError.provWorkflowException (unknownMethodMsg m)))
  | none =>
    match resolveGraphAndTarget who g? named_graph_uri with
    | Except.error e => ([], Except.error e)
    | Except.ok (g, ng) =>
      (backendEffects g methods rdf_file_path ng, Except.ok (stringResult g methods ng))

/-! ## Vocabulary disequalities -/

@[simp]
theorem type_ne_created : RDF.type ≠ DCTERMS.created := by decide

@[simp]
theorem type_ne_labelPred : RDF.type ≠ RDFS.label := by decide

@[simp]
theorem created_ne_type : DCTERMS.created ≠ RDF.type := by decide

@[simp]
theorem created_ne_labelPred : DCTERMS.created ≠ RDFS.label := by decide

@[simp]
theorem labelPred_ne_type : RDFS.label ≠ RDF.type := by decide

@[simp]
theorem labelPred_ne_created : RDFS.label ≠ DCTERMS.created := by decide

@[simp]
theorem isUnknownMethod_true {m : String} :
    isUnknownMethod m = true ↔ m ∉ known_methods := by
  simp [isUnknownMethod]

@[simp]
theorem isUnknownMethod_false {m : String} :
    isUnknownMethod m = false ↔ m ∈ known_methods := by
  simp [isUnknownMethod]

/-! ## Lemmas about a record's own statements -/

/-- The statements a record emits for itself are pairwise distinct (their
predicates differ), so each occurs exactly once in one emission. -/
theorem ownTriples_count_self (r : ProvReporter) (t : Triple)
    (ht : t ∈ r.ownTriples) : r.ownTriples.count t = 1 := by
  cases h : r.label with
  | none =>
    simp [ProvReporter.ownTriples, h] at ht
    rcases ht with h1 | h1 <;> subst h1 <;>
      simp [ProvReporter.ownTriples, h, List.count_cons, List.count_nil,
        beq_iff_eq, Triple.mk.injEq]
  | some l =>
    simp [ProvReporter.ownTriples, h] at ht
    rcases ht with h1 | h1 | h1 <;> subst h1 <;>
      simp [ProvReporter.ownTriples, h, List.count_cons, List.count_nil,
        beq_iff_eq, Triple.mk.injEq]

/-! ## Claim C1 -/

/-- **C1** (code evaluation): the constructor's specialisation checks,
evaluated at the claim's four scenarios.  A built-in kind given a
`class_uri` fails, a tag not starting with `http` fails, and a valid
`http`-prefixed tag on a user-defined specialisation succeeds — but the
first conjunct shows the divergence from the claim: a user-defined
specialisation constructed *without* a `class_uri` succeeds silently,
because every check (including the `elif` that should reject precisely this
case) is nested under `if class_uri is not None:` and is skipped. -/
theorem c1_specialisation_check_eval :
    ProvReporter.init "MySpecialBlock" none none none none "uuid-1" none "t0"
      = Except.ok
        { className := "MySpecialBlock", uri := PWFS ++ "uuid-1", label := none,
          named_graph_uri := none, class_uri := none, version_uri := none,
          created := "t0" } ∧
    ProvReporter.init "Block" none none none (some "http://example.com/c") "uuid-1" none "t0"
      = Except.error (PyError.provWorkflowException builtinClassUriMsg) ∧
    ProvReporter.init "MySpecialBlock" none none none (some "ftp://example.com/c") "uuid-1" none "t0"
      = Except.error (PyError.provWorkflowException classUriHttpMsg) ∧
    ProvReporter.init "MySpecialBlock" none none none (some "http://example.com/c") "uuid-1" none "t0"
      = Except.ok
        { className := "MySpecialBlock", uri := PWFS ++ "uuid-1", label := none,
          named_graph_uri := none, class_uri := some "http://example.com/c",
          version_uri := none, created := "t0" } := by
  exact ⟨rfl, rfl, rfl, rfl⟩

/-! ## Claim C3 -/

/-- **C3**: graph-building a `Workflow` whose block list is `None` or empty
raises the `ProvWorkflowException` before any statement is emitted: viewed as
a transformer of a caller-supplied graph, the call returns that graph
completely unchanged together with the error, and the functional form errors
for a supplied graph and for no graph alike. -/
theorem c3_empty_workflow_error (w : Workflow) (g : Graph)
    (h : w.blocks = none ∨ w.blocks = some []) :
    w.prov_to_graphOn g
        = (g, some (PyError.provWorkflowException workflowNeedsBlockMsg)) ∧
    w.prov_to_graph (some g)
        = Except.error (PyError.provWorkflowException workflowNeedsBlockMsg) ∧
    w.prov_to_graph none
        = Except.error (PyError.provWorkflowException workflowNeedsBlockMsg) := by
  rcases h with h | h <;>
    simp [Workflow.prov_to_graphOn, Workflow.prov_to_graph, h]

def c3EmptyWorkflow : Workflow :=
  { base :=
      { className := "Workflow", uri := "http://example.com/wf-empty", label := none,
        named_graph_uri := none, class_uri := none, version_uri := none,
        created := "t0" },
    blocks := some [] }

/-- Witness for C3 at a workflow whose block list is empty. -/
theorem c3_empty_workflow_error_witness :
    c3EmptyWorkflow.prov_to_graphOn Graph.empty
        = (Graph.empty,
           some (PyError.provWorkflowException workflowNeedsBlockMsg)) ∧
    c3EmptyWorkflow.prov_to_graph (some Graph.empty)
        = Except.error (PyError.provWorkflowException workflowNeedsBlockMsg) ∧
    c3EmptyWorkflow.prov_to_graph none
        = Except.error (PyError.provWorkflowException workflowNeedsBlockMsg) :=
  c3_empty_workflow_error c3EmptyWorkflow Graph.empty (Or.inr rfl)

/-! ## Claim C9 -/

/-- **C9**: one `prov_to_graph` call appends exactly the record's own
statements to the supplied graph; a second call against the resulting graph
appends the identical statement list again (construction-time state is never
recomputed), so starting from a fresh graph every one of the record's own
statements ends up with multiplicity exactly 2. -/
theorem c9_idempotent_emission (r : ProvReporter) (g : Graph) :
    (r.prov_to_graph (some g)).triples = g.triples ++ r.ownTriples ∧
    (r.prov_to_graph (some (r.prov_to_graph (some g)))).triples
        = (r.prov_to_graph (some g)).triples ++ r.ownTriples ∧
    ∀ t ∈ r.ownTriples,
      (r.prov_to_graph (some (r.prov_to_graph none))).triples.count t = 2 := by
  refine ⟨prov_to_graph_triples r (some g), prov_to_graph_triples r _, ?_⟩
  intro t ht
  have h1 : (r.prov_to_graph (some (r.prov_to_graph none))).triples
      = r.ownTriples ++ r.ownTriples := by
    simp [prov_to_graph_triples]
  rw [h1, List.count_append, ownTriples_count_self r t ht]

def c9Record : ProvReporter :=
  { className := "Entity", uri := "http://example.com/e9", label := some "an entity",
    named_graph_uri := none, class_uri := none, version_uri := none,
    created := "2020-01-01T00:00:00+0000" }

/-- Witness for C9 at a concrete labelled record and the empty graph. -/
theorem c9_idempotent_emission_witness :
    (c9Record.prov_to_graph (some Graph.empty)).triples
        = Graph.empty.triples ++ c9Record.ownTriples ∧
    (c9Record.prov_to_graph (some (c9Record.prov_to_graph (some Graph.empty)))).triples
        = (c9Record.prov_to_graph (some Graph.empty)).triples ++ c9Record.ownTriples ∧
    ∀ t ∈ c9Record.ownTriples,
      (c9Record.prov_to_graph (some (c9Record.prov_to_graph none))).triples.count t = 2 :=
  c9_idempotent_emission c9Record Graph.empty

/-! ## Claim C2 -/

def c2BlockA : ProvReporter :=
  { className := "Block", uri := "http://example.com/block/a", label := none,
    named_graph_uri := none, class_uri := none, version_uri := none,
    created := "t1" }

def c2BlockB : ProvReporter :=
  { className := "Block", uri := "http://example.com/block/b", label := some "B",
    named_graph_uri := none, class_uri := none, version_uri := none,
    created := "t2" }

def c2BlockC : ProvReporter :=
  { className := "Block", uri := "http://example.com/block/c", label := none,
    named_graph_uri := none, class_uri := none, version_uri := none,
    created := "t3" }

def c2Workflow : Workflow :=
  { base :=
      { className := "Workflow", uri := "http://example.com/wf2", label := none,
        named_graph_uri := none, class_uri := none, version_uri := none,
        created := "t0" },
    blocks := some [c2BlockA, c2BlockB, c2BlockC] }

/-- **C2** (code evaluation): graph-building a workflow whose blocks are
`[A, B, C]` never returns an aggregated graph.  Once the empty check passes,
the source's next emission statement evaluates `self.PROVWF.Workflow`
(workflow.py line 25); no `PROVWF` attribute exists on the instance or its
class hierarchy, so the call raises `AttributeError` — after mutating a
caller-supplied graph with only the base-class statements, and before the
`Workflow` type statement, the blocks loop, any `hadBlock` statement, or
the return of a graph. -/
theorem c2_workflow_attribute_error_eval :
    c2Workflow.prov_to_graph none
        = Except.error (PyError.attributeError provwfAttrMsg) ∧
    c2Workflow.prov_to_graphOn Graph.empty
        = (c2Workflow.base.prov_to_graph (some Graph.empty),
           some (PyError.attributeError provwfAttrMsg)) ∧
    (c2Workflow.prov_to_graphOn Graph.empty).1.triples
        = c2Workflow.base.ownTriples := by
  exact ⟨rfl, rfl, rfl⟩

/-! ## Claim C4 -/

/-- **C4**: whenever the (normalized) method selection contains any name
outside the known methods, `persist` raises the `ProvWorkflowException`
whose message names the first such value and lists the valid values — in
every invocation mode — and performs no backend effect at all: no file
write, no HTTP request, regardless of any valid names selected alongside. -/
theorem c4_unknown_method_all_or_nothing (who : Invoker) (g? : Option Graph)
    (methodsArg : MethodsArg) (path : String) (ng : Option String) (m : String)
    (hm : m ∈ normalizeMethods methodsArg) (hbad : m ∉ known_methods) :
    ∃ m', m' ∈ normalizeMethods methodsArg ∧ m' ∉ known_methods ∧
      ProvReporter.persist who g? methodsArg path ng
        = ([], Except.error (PyError.provWorkflowException (unknownMethodMsg m'))) := by
  cases hfind : (normalizeMethods methodsArg).find? isUnknownMethod with
  | none =>
    exfalso
    have hin := List.find?_eq_none.mp hfind m hm
    simp at hin
    exact hbad hin
  | some m' =>
    refine ⟨m', List.mem_of_find?_eq_some hfind, ?_, ?_⟩
    · have hp := List.find?_some hfind
      simpa using hp
    · simp [ProvReporter.persist, hfind]

/-- Witness for C4: `persist(methods=["file", "bogus"])` in generic mode. -/
theorem c4_unknown_method_all_or_nothing_witness :
    ∃ m', m' ∈ normalizeMethods (MethodsArg.list ["file", "bogus"]) ∧
      m' ∉ known_methods ∧
      ProvReporter.persist Invoker.cls (some Graph.empty)
          (MethodsArg.list ["file", "bogus"]) "prov_reporter" none
        = ([], Except.error (PyError.provWorkflowException (unknownMethodMsg m'))) :=
  c4_unknown_method_all_or_nothing Invoker.cls (some Graph.empty)
    (MethodsArg.list ["file", "bogus"]) "prov_reporter" none "bogus"
    (by decide) (by decide)

/-! ## Claim C5 -/

/-- **C5**: for any valid method selection, a generic (class-mode) call
without a graph raises the `ProvWorkflowException` demanding one, before any
backend effect; and when a graph is supplied in generic mode, that very
graph is the one the backends receive — the file backend writes its
serialization and the string backend returns its serialization. -/
theorem c5_generic_mode (methodsArg : MethodsArg) (path : String)
    (ng : Option String)
    (hvalid : ∀ m ∈ normalizeMethods methodsArg, m ∈ known_methods) :
    ProvReporter.persist Invoker.cls none methodsArg path ng
        = ([], Except.error (PyError.provWorkflowException genericNeedsGraphMsg)) ∧
    ∀ g : Graph,
      ("file" ∈ normalizeMethods methodsArg →
        persistToFile g path ng
          ∈ (ProvReporter.persist Invoker.cls (some g) methodsArg path ng).1) ∧
      ("string" ∈ normalizeMethods methodsArg →
        (ProvReporter.persist Invoker.cls (some g) methodsArg path ng).2
          = Except.ok (some (match ng with
              | none => g.serialize "turtle"
              | some _ => g.serialize "trig"))) := by
  have hfind : (normalizeMethods methodsArg).find? isUnknownMethod = none := by
    rw [List.find?_eq_none]
    intro x hx
    simp [hvalid x hx]
  refine ⟨by simp [ProvReporter.persist, hfind, resolveGraphAndTarget], ?_⟩
  intro g
  constructor
  · intro hfile
    simp [ProvReporter.persist, hfind, resolveGraphAndTarget, backendEffects, hfile]
  · intro hstr
    simp [ProvReporter.persist, hfind, resolveGraphAndTarget, stringResult, hstr]

/-- Witness for C5 with the selection `["file", "string"]`. -/
theorem c5_generic_mode_witness :
    ProvReporter.persist Invoker.cls none (MethodsArg.list ["file", "string"]) "p" none
        = ([], Except.error (PyError.provWorkflowException genericNeedsGraphMsg)) ∧
    ∀ g : Graph,
      ("file" ∈ normalizeMethods (MethodsArg.list ["file", "string"]) →
        persistToFile g "p" none
          ∈ (ProvReporter.persist Invoker.cls (some g)
              (MethodsArg.list ["file", "string"]) "p" none).1) ∧
      ("string" ∈ normalizeMethods (MethodsArg.list ["file", "string"]) →
        (ProvReporter.persist Invoker.cls (some g)
            (MethodsArg.list ["file", "string"]) "p" none).2
          = Except.ok (some (g.serialize "turtle"))) :=
  c5_generic_mode (MethodsArg.list ["file", "string"]) "p" none (by decide)

/-! ## Claim C6 -/

/-- **C6**: whenever `persist` returns normally, its return value is a
string exactly when `string` is among the (normalized) selected methods —
which is also the default selection — and `None` otherwise; the result type
carries no status code. -/
theorem c6_string_return (who : Invoker) (g? : Option Graph)
    (methodsArg : MethodsArg) (path : String) (ng : Option String)
    (effs : List Effect) (res : Option String)
    (hok : ProvReporter.persist who g? methodsArg path ng = (effs, Except.ok res)) :
    (res.isSome ↔ "string" ∈ normalizeMethods methodsArg) ∧
    normalizeMethods MethodsArg.none_ = ["string"] := by
  refine ⟨?_, rfl⟩
  cases hfind : (normalizeMethods methodsArg).find? isUnknownMethod with
  | some m =>
    simp [ProvReporter.persist, hfind] at hok
  | none =>
    cases hres : resolveGraphAndTarget who g? ng with
    | error e => simp [ProvReporter.persist, hfind, hres] at hok
    | ok pr =>
      obtain ⟨g, ngr⟩ := pr
      simp only [ProvReporter.persist, hfind, hres, Prod.mk.injEq] at hok
      obtain ⟨-, hr⟩ := hok
      have hres2 : res = stringResult g (normalizeMethods methodsArg) ngr := by
        cases hr
        rfl
      subst hres2
      by_cases hs : "string" ∈ normalizeMethods methodsArg <;>
        simp [stringResult, hs]

/-- Witness for C6: a generic call with the default method selection. -/
theorem c6_string_return_witness :
    ((some (Graph.empty.serialize "turtle")).isSome
        ↔ "string" ∈ normalizeMethods MethodsArg.none_) ∧
    normalizeMethods MethodsArg.none_ = ["string"] :=
  c6_string_return Invoker.cls (some Graph.empty) MethodsArg.none_ "p" none
    [] (some (Graph.empty.serialize "turtle")) rfl

/-! ## Claim C7 -/

/-- The `context` parameter of a GraphDB POST effect, if any. -/
def gdbContext : Effect → Option String
  | Effect.graphdbPost c _ => some c
  | _ => none

def c7Record : ProvReporter :=
  { className := "Entity", uri := "http://example.com/r7", label := none,
    named_graph_uri := some "http://example.com/record-ng", class_uri := none,
    version_uri := none, created := "2020-01-01T00:00:00+0000" }

/-- Counterexample to C7 as stated: on an instance whose `named_graph_uri`
is set, an explicit caller override is *not* the target passed to the
backends — the record's own value replaces it, so the GraphDB backend
receives the record's named graph, not the override. -/
theorem c7_override_counterexample :
    (ProvReporter.persist (Invoker.inst c7Record) none (MethodsArg.list ["graphdb"])
        "p" (some "http://example.com/override")).1.map gdbContext
      = [some "<http://example.com/record-ng>"] ∧
    (some "<http://example.com/record-ng>" : Option String)
      ≠ some "<http://example.com/override>" := by
  exact ⟨rfl, by decide⟩

/-- **C7 (amended)**: an instance-mode `persist` call behaves exactly like a
generic call on the graph freshly built from the bound record, with the
named-graph target resolved by letting the record's `named_graph_uri`, when
set, replace any caller-supplied value; the caller's argument is used only
when the record carries none. -/
theorem c7_instance_mode_refinement (r : ProvReporter) (g? : Option Graph)
    (methodsArg : MethodsArg) (path : String) (ng : Option String) :
    ProvReporter.persist (Invoker.inst r) g? methodsArg path ng
      = ProvReporter.persist Invoker.cls (some (r.prov_to_graph none)) methodsArg
          path (resolveNamedGraph r.named_graph_uri ng) := by
  cases hfind : (normalizeMethods methodsArg).find? isUnknownMethod <;>
    simp [ProvReporter.persist, hfind, resolveGraphAndTarget]

/-! ## Claim C8 -/

/-- **C8** (code evaluation): the file backend's path mangling at the base
path `"a.ttlb"`, which contains `.ttl` mid-name and carries no recognized
extension.  Python's `str.replace` removes the substring everywhere, so the
code writes to `"ab.ttl"`, while stripping a trailing known extension and
appending `.ttl` would preserve the rest of the base path and give
`"a.ttlb.ttl"`. -/
theorem c8_file_path_eval :
    persistToFile Graph.empty "a.ttlb" none
        = Effect.fileWrite "ab.ttl" (Graph.empty.serialize "turtle") ∧
    ("ab.ttl" : String) ≠ "a.ttlb" ++ ".ttl" := by
  exact ⟨rfl, by decide⟩

/-! ## Claim C10 -/

def c10Block : ProvReporter :=
  { className := "Block", uri := "http://example.com/block10", label := none,
    named_graph_uri := none, class_uri := none, version_uri := none,
    created := "t1" }

def c10Workflow : Workflow :=
  { base :=
      { className := "Workflow", uri := "http://example.com/wf10", label := none,
        named_graph_uri := none, class_uri := none, version_uri := none,
        created := "t0" },
    blocks := some [c10Block] }

/-- Counterexample to C10 as stated: persistence of a constructor-built
one-block workflow does not take the no-named-graph branches — it takes no
backend branch at all.  `persist` first rebuilds the workflow's graph, which
raises `AttributeError` at `self.PROVWF.Workflow` (workflow.py line 25), so
the error propagates with no file written, where the claim's "always takes
the no-named-graph branches" would mean a Turtle write to `p.ttl` for this
call. -/
theorem c10_named_graph_counterexample :
    Workflow.init (some "http://example.com/wf10") none (some [c10Block]) "u" none "t0"
        = Except.ok c10Workflow ∧
    ProvReporter.persist (Invoker.instW c10Workflow) none (MethodsArg.str "file")
        "p" none
      = ([], Except.error (PyError.attributeError provwfAttrMsg)) := by
  exact ⟨rfl, rfl⟩

/-- **C10 (amended)**: the `Workflow` constructor forwards only `uri` and
`label`, so construction always succeeds with `named_graph_uri = None` and
no `class_uri` set — the class-specialization validation is never exercised
for workflows — but instance-mode persistence of a workflow never reaches
any backend branch: building its graph raises `ProvWorkflowException` when
the block list is empty and `AttributeError` (at `self.PROVWF.Workflow`)
otherwise, so `persist` performs no backend effect and never returns
normally. -/
theorem c10_workflow_invariant_amended (uri : Option String)
    (label : Option String) (blocks : Option (List ProvReporter))
    (uuid : String) (version : Option String) (now : String) :
    ∃ w, Workflow.init uri label blocks uuid version now = Except.ok w ∧
      w.base.named_graph_uri = none ∧
      w.base.class_uri = none ∧
      ∀ g? methodsArg path ng,
        (ProvReporter.persist (Invoker.instW w) g? methodsArg path ng).1 = [] ∧
        ∀ res, (ProvReporter.persist (Invoker.instW w) g? methodsArg path ng).2
          ≠ Except.ok res := by
  refine ⟨_, rfl, rfl, rfl, ?_⟩
  intro g? methodsArg path ng
  have hpg : ∃ e, Workflow.prov_to_graph
      { base :=
          { className := "Workflow",
            uri := match uri with | some s => s | none => PWFS ++ uuid,
            label := label, named_graph_uri := none, class_uri := none,
            version_uri := version, created := now },
        blocks := some (blocks.getD []) } none = Except.error e := by
    by_cases hb : (blocks.getD []).length < 1
    · exact ⟨PyError.provWorkflowException workflowNeedsBlockMsg,
        by simp [Workflow.prov_to_graph, hb]⟩
    · exact ⟨PyError.attributeError provwfAttrMsg,
        by simp [Workflow.prov_to_graph, hb]⟩
  obtain ⟨e, hpg⟩ := hpg
  cases hfind : (normalizeMethods methodsArg).find? isUnknownMethod with
  | some m =>
    exact ⟨by simp [ProvReporter.persist, hfind],
           by intro res; simp [ProvReporter.persist, hfind]⟩
  | none =>
    exact ⟨by simp [ProvReporter.persist, hfind, resolveGraphAndTarget, hpg],
           by intro res; simp [ProvReporter.persist, hfind, resolveGraphAndTarget, hpg]⟩

/-- Witness for the amended C10 at concrete constructor arguments. -/
theorem c10_workflow_invariant_amended_witness :
    ∃ w, Workflow.init none none none "u" none "t0" = Except.ok w ∧
      w.base.named_graph_uri = none ∧
      w.base.class_uri = none ∧
      ∀ g? methodsArg path ng,
        (ProvReporter.persist (Invoker.instW w) g? methodsArg path ng).1 = [] ∧
        ∀ res, (ProvReporter.persist (Invoker.instW w) g? methodsArg path ng).2
          ≠ Except.ok res :=
  c10_workflow_invariant_amended none none none "u" none "t0"
